import Mathlib

/-!
Verification development for the agile-metrics-action repository.

The definitions below are a shallow embedding of the metrics computation
engine: `src/devex-metrics-collector.js` (file filtering, size aggregation,
size categorisation, PR maturity) and the team metrics collector
(`TeamMetricsCollector`: ready-for-review resolution, pickup/approve/merge
times, aggregate statistics, the empty-window sentinel).  JavaScript numbers
that hold timestamps are modelled as integers (milliseconds since epoch);
durations in hours and averages are modelled as rationals; `Math.round` is
modelled exactly (round half toward positive infinity).  JavaScript
`null`/`undefined` results are modelled with `Option`.
-/

namespace AgileMetrics

/-- Status of a changed file, as reported by the provider
(`added`, `modified`, `removed`, `renamed`). -/
inductive FileStatus
  | added
  | modified
  | removed
  | renamed
  deriving DecidableEq, Repr

/-- A changed file of a pull request or of a commit comparison:
`{filename, additions, deletions, status}`.  Missing `additions`/`deletions`
fields (the `file.additions || 0` guards in the source) are modelled by the
value `0`. -/
structure PRFile where
  filename : String
  additions : Nat
  deletions : Nat
  status : FileStatus
  deriving DecidableEq, Repr

/-- Filter configuration of `DevExMetricsCollector.options`:
glob patterns to ignore, plus the two deletion switches. -/
structure FilterOptions where
  filesToIgnore : List String
  ignoreLineDeletions : Bool
  ignoreFileDeletions : Bool
  deriving DecidableEq, Repr

/-- Embedding of the source's glob matching: the source rewrites the pattern
with `pattern.replace(/\*/g, '.*').replace(/\?/g, '.')` and tests the
anchored regular expression `^...$` against the filename.  Hence `*` matches
any run of characters and both `?` and `.` match exactly one character
(a literal `.` in a pattern is NOT escaped by the source, so it keeps its
regular-expression meaning); every other character of the patterns used here
is matched literally. -/
def globMatch : List Char → List Char → Bool
  | [], [] => true
  | [], _ :: _ => false
  | '*' :: ps, [] => globMatch ps []
  | '*' :: ps, c :: cs => globMatch ps (c :: cs) || globMatch ('*' :: ps) cs
  | '?' :: ps, _ :: cs => globMatch ps cs
  | '.' :: ps, _ :: cs => globMatch ps cs
  | p :: ps, c :: cs => p == c && globMatch ps cs
  | _ :: _, [] => false
  termination_by p s => p.length + s.length

/-- The `some`-test of `filterFiles`/`calculateDiffSize`: does the file's
name match one of the configured ignore patterns? -/
def matchesIgnorePattern (opts : FilterOptions) (file : PRFile) : Bool :=
  opts.filesToIgnore.any fun pattern =>
    globMatch pattern.toList file.filename.toList

/-- Embedding of `DevExMetricsCollector.filterFiles`.  NOTE the early return:
when the ignore-pattern list is empty the source returns the input list
unchanged, so the `ignoreFileDeletions` check inside the filter callback is
never reached in that case. -/
def filterFiles (opts : FilterOptions) (files : List PRFile) : List PRFile :=
  if opts.filesToIgnore.length = 0 then
    files
  else
    files.filter fun file =>
      if matchesIgnorePattern opts file then
        false
      else if opts.ignoreFileDeletions && file.status == FileStatus.removed then
        false
      else
        true

/-- Result record of `calculateSizeDetails`. -/
structure SizeDetails where
  total_additions : Nat
  total_deletions : Nat
  total_changes : Nat
  files_changed : Nat
  files_analyzed : Nat
  deriving DecidableEq, Repr

/-- Embedding of `DevExMetricsCollector.calculateSizeDetails`: sums additions
always, sums deletions only when `ignoreLineDeletions` is off,
`total_changes` is the sum of the two accumulators. -/
def calculateSizeDetails (opts : FilterOptions) (files : List PRFile) : SizeDetails :=
  let totalAdditions := (files.map (fun file => file.additions)).sum
  let totalDeletions :=
    if opts.ignoreLineDeletions then 0
    else (files.map (fun file => file.deletions)).sum
  { total_additions := totalAdditions
    total_deletions := totalDeletions
    total_changes := totalAdditions + totalDeletions
    files_changed := files.length
    files_analyzed := files.length }

/-- Embedding of `DevExMetricsCollector.calculateDiffSize`: one pass over the
diff files, skipping a file when the pattern list is non-empty and the file
matches a pattern, or when `ignoreFileDeletions` is on and the file's status
is `removed`; otherwise its additions (and, unless `ignoreLineDeletions`,
its deletions) are accumulated. -/
def calculateDiffSize (opts : FilterOptions) (files : List PRFile) : Nat :=
  files.foldl
    (fun totalChanges file =>
      if opts.filesToIgnore.length > 0 && matchesIgnorePattern opts file then
        totalChanges
      else if opts.ignoreFileDeletions && file.status == FileStatus.removed then
        totalChanges
      else
        totalChanges + file.additions +
          (if opts.ignoreLineDeletions then 0 else file.deletions))
    0

/-- Size category returned by `categorizePRSize`. -/
inductive SizeCategory
  | s
  | m
  | l
  | xl
  deriving DecidableEq, Repr

/-- Embedding of `DevExMetricsCollector.categorizePRSize`:
`total_changes < 105` is small, `≤ 160` medium, `≤ 240` large, else XL. -/
def categorizePRSize (sizeDetails : SizeDetails) : SizeCategory :=
  if sizeDetails.total_changes < 105 then SizeCategory.s
  else if sizeDetails.total_changes ≤ 160 then SizeCategory.m
  else if sizeDetails.total_changes ≤ 240 then SizeCategory.l
  else SizeCategory.xl

/-- Rank of a size tier in the order s < m < l < xl used by the
specification. -/
def tierRank : SizeCategory → Nat
  | SizeCategory.s => 0
  | SizeCategory.m => 1
  | SizeCategory.l => 2
  | SizeCategory.xl => 3

end AgileMetrics

namespace AgileMetrics

/-- Configuration used by the C1/C2 failing input: no glob patterns,
deletions of whole files ignored, line deletions counted. -/
def cfgNoGlobs : FilterOptions :=
  { filesToIgnore := []
    ignoreLineDeletions := false
    ignoreFileDeletions := true }

/-- The failing input of C1/C2: a single deleted file with five deleted
lines. -/
def removedFile : PRFile :=
  { filename := "deleted.txt"
    additions := 0
    deletions := 5
    status := FileStatus.removed }

/-- C1: the claim states that with ignore-file-deletions enabled the
filtered list never contains a `removed` file, in particular when the glob
ignore list is empty.  The source's `filterFiles` violates this: with an
empty pattern list it returns the input unchanged, `removed` files included
(the early return skips the status check), while the repository's own test
suite for `filterFiles` expects removed files to be dropped in exactly this
configuration.  This theorem evaluates the embedded source at the failing
input: the removed file survives the filter. -/
theorem c1_filterFiles_keeps_removed_file_without_globs :
    filterFiles cfgNoGlobs [removedFile] = [removedFile] ∧
      removedFile.status = FileStatus.removed := by
  constructor
  · rfl
  · rfl

/-- C2: the claim states that the PR-size aggregation path
(`filterFiles` then `calculateSizeDetails`) and the diff aggregation path
(`calculateDiffSize`) produce the same total change count for every input.
At the C1 failing input they differ: the size path keeps the removed file
and counts 5 changes, the diff path skips it and counts 0. -/
theorem c2_aggregation_paths_disagree_on_removed_file :
    (calculateSizeDetails cfgNoGlobs (filterFiles cfgNoGlobs [removedFile])).total_changes = 5 ∧
      calculateDiffSize cfgNoGlobs [removedFile] = 0 := by
  constructor
  · rfl
  · rfl

/-- C5: with the thresholds 105/160/240 the classifier sends
`total_changes` = 104 to `s`, 105 to `m`, 240 to `l` and 241 to `xl`,
whatever the remaining fields of the aggregate are. -/
theorem c5_categorize_thresholds (d : SizeDetails) :
    (d.total_changes = 104 → categorizePRSize d = SizeCategory.s) ∧
      (d.total_changes = 105 → categorizePRSize d = SizeCategory.m) ∧
      (d.total_changes = 240 → categorizePRSize d = SizeCategory.l) ∧
      (d.total_changes = 241 → categorizePRSize d = SizeCategory.xl) := by
  refine ⟨fun h => ?_, fun h => ?_, fun h => ?_, fun h => ?_⟩ <;>
    simp [categorizePRSize, h]

/-- Witness for C5 at the four concrete aggregates. -/
theorem c5_categorize_thresholds_witness :
    categorizePRSize ⟨0, 0, 104, 0, 0⟩ = SizeCategory.s ∧
      categorizePRSize ⟨0, 0, 105, 0, 0⟩ = SizeCategory.m ∧
      categorizePRSize ⟨0, 0, 240, 0, 0⟩ = SizeCategory.l ∧
      categorizePRSize ⟨0, 0, 241, 0, 0⟩ = SizeCategory.xl :=
  ⟨(c5_categorize_thresholds ⟨0, 0, 104, 0, 0⟩).1 rfl,
    (c5_categorize_thresholds ⟨0, 0, 105, 0, 0⟩).2.1 rfl,
    (c5_categorize_thresholds ⟨0, 0, 240, 0, 0⟩).2.2.1 rfl,
    (c5_categorize_thresholds ⟨0, 0, 241, 0, 0⟩).2.2.2 rfl⟩

/-- C6: the classifier is monotonic with respect to the tier order
s < m < l < xl (encoded by `tierRank`): a larger total change count never
gets a smaller tier. -/
theorem c6_categorize_monotonic (d e : SizeDetails)
    (h : d.total_changes ≤ e.total_changes) :
    tierRank (categorizePRSize d) ≤ tierRank (categorizePRSize e) := by
  simp only [categorizePRSize, apply_ite tierRank, tierRank]
  split_ifs <;> first
    | decide
    | omega

/-- Witness for C6: 100 total changes rank no higher than 200. -/
theorem c6_categorize_monotonic_witness :
    tierRank (categorizePRSize ⟨0, 0, 100, 0, 0⟩) ≤
      tierRank (categorizePRSize ⟨0, 0, 200, 0, 0⟩) :=
  c6_categorize_monotonic ⟨0, 0, 100, 0, 0⟩ ⟨0, 0, 200, 0, 0⟩ (by decide)

/-- Embedding of `Math.round`: round half toward positive infinity.
Written with `Rat.floor` so that concrete inputs evaluate by `decide`. -/
def jsRound (q : ℚ) : ℤ := (q + 1 / 2).floor

/-- Bridge from `jsRound` to the mathematical floor. -/
theorem jsRound_eq_floor (q : ℚ) : jsRound q = ⌊q + 1 / 2⌋ :=
  (Rat.floor_def' (q + 1 / 2)).trans Rat.floor_def.symm

/-- The `Math.round(x * 100) / 100` idiom used by the team metrics
collector to round hours to two decimals. -/
def roundTwo (q : ℚ) : ℚ := (jsRound (q * 100) : ℚ) / 100

/-- A pull-request timeline event: `{event, created_at, user}`; the
actor's `user.type === 'Bot'` test is modelled by the `userIsBot` flag.
Timestamps are milliseconds since epoch. -/
structure TimelineEvent where
  event : String
  created_at : Int
  userIsBot : Bool
  deriving DecidableEq, Repr

/-- A formal review: `{state, submitted_at, user}`.  The source sometimes
tests the mere presence of `submitted_at` (a truthiness check on the raw
field); that presence is modelled by `hasSubmittedAt`, with `submitted_at`
holding the parsed timestamp in milliseconds. -/
structure Review where
  state : String
  submitted_at : Int
  hasSubmittedAt : Bool
  userIsBot : Bool
  deriving DecidableEq, Repr

/-- The review-activity event-kind test that appears in
`calculatePickupTime` and `calculateApproveTime`:
`reviewed`, `commented` or `line-commented`. -/
def isReviewActivity (e : TimelineEvent) : Bool :=
  e.event == "reviewed" || e.event == "commented" || e.event == "line-commented"

/-- Ordered insertion used to model the ascending
`.sort((a, b) => new Date(a.submitted_at) - new Date(b.submitted_at))`
of `calculatePickupTime`.  Only the head of the sorted list is consumed by
the source, so stability differences with the engine's sort are
irrelevant. -/
def insertByTime (r : Review) : List Review → List Review
  | [] => [r]
  | x :: xs =>
      if r.submitted_at ≤ x.submitted_at then r :: x :: xs
      else x :: insertByTime r xs

/-- Sorting a review list by ascending submission time (see
`insertByTime`). -/
def sortReviewsByTime : List Review → List Review
  | [] => []
  | r :: rs => insertByTime r (sortReviewsByTime rs)

/-- Embedding of `TeamMetricsCollector.calculatePickupTime` (the collector
variant with bot filtering and the negative-result guard): the first human
review-activity timeline event and the earliest human review with a
submission time are located, the earlier of the two timestamps is taken,
and the distance from the ready-for-review time is returned in hours
(two decimals), `null` when no such activity exists or the distance is
negative. -/
def calculatePickupTime (readyForReviewAt : Int) (timeline : List TimelineEvent)
    (reviews : List Review) : Option ℚ :=
  let firstReviewComment :=
    timeline.find? fun e => isReviewActivity e && !e.userIsBot
  let sortedReviews :=
    sortReviewsByTime (reviews.filter fun r => r.hasSubmittedAt && !r.userIsBot)
  let firstReview := sortedReviews.head?
  let firstActivityTime : Option Int :=
    match firstReviewComment, firstReview with
    | some c, some r =>
        some (if c.created_at < r.submitted_at then c.created_at else r.submitted_at)
    | some c, none => some c.created_at
    | none, some r => some r.submitted_at
    | none, none => none
  match firstActivityTime with
  | none => none
  | some t =>
      let hours : ℚ := ((t - readyForReviewAt : Int) : ℚ) / (1000 * 60 * 60)
      if hours < 0 then none else some (roundTwo hours)

/-- Embedding of `TeamMetricsCollector.calculateApproveTime` (the collector
variant that anchors on the first APPROVED review): the start point is the
first timeline review-activity event strictly before the approval — with no
bot filtering — or the ready-for-review time when no such event exists. -/
def calculateApproveTime (readyForReviewAt : Int) (timeline : List TimelineEvent)
    (reviews : List Review) : Option ℚ :=
  match reviews.find? (fun r => r.state == "APPROVED") with
  | none => none
  | some firstApproval =>
      let firstComment := timeline.find? fun e =>
        isReviewActivity e && decide (e.created_at < firstApproval.submitted_at)
      let startTime :=
        match firstComment with
        | some c => c.created_at
        | none => readyForReviewAt
      some (roundTwo
        (((firstApproval.submitted_at - startTime : Int) : ℚ) / (1000 * 60 * 60)))

/-- Embedding of `TeamMetricsCollector.calculateMergeTime`: merge timestamp
minus the first APPROVED review's submission time, `null` when no approval
exists. -/
def calculateMergeTime (mergedAt : Int) (reviews : List Review) : Option ℚ :=
  match reviews.find? (fun r => r.state == "APPROVED") with
  | none => none
  | some firstApproval =>
      some (roundTwo
        (((mergedAt - firstApproval.submitted_at : Int) : ℚ) / (1000 * 60 * 60)))

/-- Minimum of a list of timestamps, written from the specification's words
for the earliest activity time; `none` on the empty list. -/
def earliestTime : List Int → Option Int
  | [] => none
  | t :: ts =>
      match earliestTime ts with
      | none => some t
      | some u => some (min t u)

/-- Formalisation of claim C4 in the specification's own words: the pickup
time is the earlier of the first human comment/review timeline event and
the earliest human formal review, minus the ready-for-review time, `null`
when no human activity exists or the difference is negative (hours rounded
to two decimals as the collector reports them). -/
def claimPickupTime (readyForReviewAt : Int) (timeline : List TimelineEvent)
    (reviews : List Review) : Option ℚ :=
  let firstHumanEvent :=
    (timeline.filter fun e => isReviewActivity e && !e.userIsBot).head?
  let firstHumanReviewTime :=
    earliestTime
      ((reviews.filter fun r => r.hasSubmittedAt && !r.userIsBot).map
        fun r => r.submitted_at)
  let firstActivityTime : Option Int :=
    match firstHumanEvent, firstHumanReviewTime with
    | some e, some t => some (min e.created_at t)
    | some e, none => some e.created_at
    | none, some t => some t
    | none, none => none
  match firstActivityTime with
  | none => none
  | some t =>
      let hours : ℚ := ((t - readyForReviewAt : Int) : ℚ) / (1000 * 60 * 60)
      if hours < 0 then none else some (roundTwo hours)

/-- Formalisation of claim C3 as stated: approve time anchors on the LAST
HUMAN review-activity event strictly before the first approval (or the
ready-for-review time when none precedes it). -/
def claimApproveTime (readyForReviewAt : Int) (timeline : List TimelineEvent)
    (reviews : List Review) : Option ℚ :=
  match reviews.find? (fun r => r.state == "APPROVED") with
  | none => none
  | some firstApproval =>
      let lastHumanBefore :=
        (timeline.filter fun e =>
          isReviewActivity e && !e.userIsBot &&
            decide (e.created_at < firstApproval.submitted_at)).getLast?
      let startTime :=
        match lastHumanBefore with
        | some e => e.created_at
        | none => readyForReviewAt
      some (roundTwo
        (((firstApproval.submitted_at - startTime : Int) : ℚ) / (1000 * 60 * 60)))

/-- Formalisation of claim C3 as amended: the anchor is the FIRST
review-activity event strictly before the approval, bots included, as the
source computes it. -/
def amendedApproveTime (readyForReviewAt : Int) (timeline : List TimelineEvent)
    (reviews : List Review) : Option ℚ :=
  match reviews.find? (fun r => r.state == "APPROVED") with
  | none => none
  | some firstApproval =>
      let firstBefore :=
        (timeline.filter fun e =>
          isReviewActivity e &&
            decide (e.created_at < firstApproval.submitted_at)).head?
      let startTime :=
        match firstBefore with
        | some e => e.created_at
        | none => readyForReviewAt
      some (roundTwo
        (((firstApproval.submitted_at - startTime : Int) : ℚ) / (1000 * 60 * 60)))

/-- Helper: `find?` returns the head of the filtered list. -/
theorem find?_eq_filter_head? {α : Type} (p : α → Bool) (l : List α) :
    l.find? p = (l.filter p).head? := by
  induction l with
  | nil => rfl
  | cons a l ih =>
      cases h : p a with
      | true =>
          rw [List.find?_cons_of_pos _ h, List.filter_cons_of_pos h, List.head?_cons]
      | false =>
          rw [List.find?_cons_of_neg, List.filter_cons_of_neg, ih]
          · simp [h]
          · simp [h]

/-- Helper: the head of an ordered insertion is the smaller of the inserted
review and the previous head. -/
theorem insertByTime_head (r : Review) (s : List Review) :
    (insertByTime r s).head? =
      some (match s with
            | [] => r
            | x :: _ => if r.submitted_at ≤ x.submitted_at then r else x) := by
  cases s with
  | nil => rfl
  | cons x xs =>
      by_cases h : r.submitted_at ≤ x.submitted_at <;> simp [insertByTime, h]

/-- Helper: the head of the time-sorted review list carries the minimal
submission time of the list. -/
theorem sortReviewsByTime_head_time (l : List Review) :
    ((sortReviewsByTime l).head?).map (fun r => r.submitted_at) =
      earliestTime (l.map fun r => r.submitted_at) := by
  induction l with
  | nil => rfl
  | cons a l ih =>
      cases hs : sortReviewsByTime l with
      | nil =>
          rw [hs] at ih
          simp only [List.head?_nil, Option.map_none'] at ih
          simp only [sortReviewsByTime, hs, insertByTime_head, List.map_cons,
            earliestTime, ← ih]
          rfl
      | cons x xs =>
          rw [hs] at ih
          simp only [List.head?_cons, Option.map_some'] at ih
          simp only [sortReviewsByTime, hs, insertByTime_head, List.map_cons,
            earliestTime, ← ih]
          by_cases h : a.submitted_at ≤ x.submitted_at <;>
            simp [h, min_def]

/-- C4: the collector's pickup time coincides, on every input, with the
claim's description: the earlier of the first human review-activity
timeline event and the earliest human formal review, minus the
ready-for-review time; `null` when no human activity exists and `null`
when the difference is negative. -/
theorem c4_pickup_time_matches_claim (readyForReviewAt : Int)
    (timeline : List TimelineEvent) (reviews : List Review) :
    calculatePickupTime readyForReviewAt timeline reviews =
      claimPickupTime readyForReviewAt timeline reviews := by
  have hmin := sortReviewsByTime_head_time
    (reviews.filter fun r => r.hasSubmittedAt && !r.userIsBot)
  simp only [calculatePickupTime, claimPickupTime, find?_eq_filter_head?]
  cases he : (timeline.filter fun e => isReviewActivity e && !e.userIsBot).head? with
  | none =>
      cases hr : (sortReviewsByTime
          (reviews.filter fun r => r.hasSubmittedAt && !r.userIsBot)).head? with
      | none =>
          rw [hr] at hmin
          simp only [Option.map_none'] at hmin
          rw [← hmin]
      | some r =>
          rw [hr] at hmin
          simp only [Option.map_some'] at hmin
          rw [← hmin]
  | some c =>
      cases hr : (sortReviewsByTime
          (reviews.filter fun r => r.hasSubmittedAt && !r.userIsBot)).head? with
      | none =>
          rw [hr] at hmin
          simp only [Option.map_none'] at hmin
          rw [← hmin]
      | some r =>
          rw [hr] at hmin
          simp only [Option.map_some'] at hmin
          rw [← hmin]
          have harg : (if c.created_at < r.submitted_at then c.created_at
              else r.submitted_at) = min c.created_at r.submitted_at := by
            rw [min_def]
            split_ifs <;> omega
          simp only [harg]

/-- Timeline of the C3 counterexamples: two human comments at one and two
hours (and, in the second scenario, a single bot comment at one hour). -/
def c3Timeline : List TimelineEvent :=
  [{ event := "commented", created_at := 3600000, userIsBot := false },
   { event := "commented", created_at := 7200000, userIsBot := false }]

/-- Bot-only timeline of the second C3 scenario. -/
def c3BotTimeline : List TimelineEvent :=
  [{ event := "commented", created_at := 3600000, userIsBot := true }]

/-- Reviews of the C3 counterexamples: one approval at three hours. -/
def c3Reviews : List Review :=
  [{ state := "APPROVED", submitted_at := 10800000, hasSubmittedAt := true,
     userIsBot := false }]

/-- C3 counterexample.  With two human comments at 1h and 2h and an
approval at 3h (ready-for-review at 0), the source anchors on the FIRST
comment and reports 2h, while the claim's last-activity anchor predicts 1h.
With a single bot comment at 1h, the source still anchors on it (no bot
filtering) and reports 2h, while the claim's human-only anchor predicts 3h.
So the claim, as stated, is false on the code at these inputs. -/
theorem c3_approve_time_counterexample :
    calculateApproveTime 0 c3Timeline c3Reviews = some 2 ∧
      claimApproveTime 0 c3Timeline c3Reviews = some 1 ∧
      calculateApproveTime 0 c3BotTimeline c3Reviews = some 2 ∧
      claimApproveTime 0 c3BotTimeline c3Reviews = some 3 := by
  have e1 : calculateApproveTime 0 c3Timeline c3Reviews =
      some (roundTwo (((10800000 - 3600000 : Int) : ℚ) / (1000 * 60 * 60))) := rfl
  have e2 : claimApproveTime 0 c3Timeline c3Reviews =
      some (roundTwo (((10800000 - 7200000 : Int) : ℚ) / (1000 * 60 * 60))) := rfl
  have e3 : calculateApproveTime 0 c3BotTimeline c3Reviews =
      some (roundTwo (((10800000 - 3600000 : Int) : ℚ) / (1000 * 60 * 60))) := rfl
  have e4 : claimApproveTime 0 c3BotTimeline c3Reviews =
      some (roundTwo (((10800000 - 0 : Int) : ℚ) / (1000 * 60 * 60))) := rfl
  refine ⟨?_, ?_, ?_, ?_⟩ <;>
    simp only [e1, e2, e3, e4, Option.some.injEq, roundTwo, jsRound_eq_floor] <;>
    norm_num

/-- C3 as amended: for every input the computed approve time is the first
APPROVED review's submission time minus the FIRST review-activity event
(human or bot) strictly before that approval, or minus the ready-for-review
time when none precedes it; `null` when no APPROVED review exists. -/
theorem c3_approve_time_amended (readyForReviewAt : Int)
    (timeline : List TimelineEvent) (reviews : List Review) :
    calculateApproveTime readyForReviewAt timeline reviews =
      amendedApproveTime readyForReviewAt timeline reviews := by
  unfold calculateApproveTime amendedApproveTime
  simp only [find?_eq_filter_head?]

/-- PR metadata needed by the maturity engine: the creation timestamp
(milliseconds since epoch). -/
structure PRDetails where
  created_at : Int
  deriving DecidableEq, Repr

/-- A commit of the PR: `{sha, commit.author.date}` (milliseconds). -/
structure CommitInfo where
  sha : String
  authorDate : Int
  deriving DecidableEq, Repr

/-- Result object of `calculatePRMaturity`.  A JS field that is absent in a
given branch of the source is `none`. -/
structure MaturityResult where
  maturity_ratio : Option ℚ := none
  maturity_percentage : Option Int := none
  details_error : Option String := none
  details_reason : Option String := none
  details_total_commits : Option Nat := none
  details_commits_after_publication : Option Nat := none
  details_total_changes : Option Nat := none
  details_changes_after_publication : Option Nat := none
  details_stable_changes : Option Int := none
  details_first_commit_sha : Option String := none
  details_last_commit_sha : Option String := none
  details_baseline_commit_sha : Option String := none
  details_first_significant_commit_sha : Option String := none
  deriving Repr

/-- The error shape shared by the failure paths of `calculatePRMaturity`:
null ratio and percentage plus a descriptive `details.error` string. -/
def maturityError (msg : String) : MaturityResult :=
  { details_error := some msg }

/-- The fully-stable shape shared by the three 100%-maturity branches of
`calculatePRMaturity`. -/
def maturityStable (sizeDetails : SizeDetails) (totalCommits : Nat)
    (firstSha lastSha : String) (reason : String) : MaturityResult :=
  { maturity_ratio := some 1
    maturity_percentage := some 100
    details_total_commits := some totalCommits
    details_total_changes := some sizeDetails.total_changes
    details_changes_after_publication := some 0
    details_stable_changes := some (sizeDetails.total_changes : Int)
    details_first_commit_sha := some firstSha
    details_last_commit_sha := some lastSha
    details_reason := some reason }

/-- The grace-window membership test of `calculatePRMaturity`: the commit is
at most five minutes after PR creation (in absolute value) or not after it
at all. -/
def withinGracePeriod (prCreatedAt : Int) (c : CommitInfo) : Bool :=
  decide ((c.authorDate - prCreatedAt).natAbs ≤ 5 * 60 * 1000) ||
    decide (c.authorDate ≤ prCreatedAt)

/-- The significant-commit test of `calculatePRMaturity`: strictly more than
five minutes after PR creation. -/
def significantlyAfter (prCreatedAt : Int) (c : CommitInfo) : Bool :=
  decide (c.authorDate - prCreatedAt > 5 * 60 * 1000)

/-- Embedding of `DevExMetricsCollector.calculatePRMaturity`.  The provider
responses are inputs: `prDetails` and `prCommits` are the fetched PR record
and commit list (`none` models a failed fetch), `prFiles` the PR's changed
files (`prFiles.getD []` models the `prFiles || []` guard), and
`compareDiffFiles` the `files` array of the baseline-to-head comparison the
source requests in its final branch (`none` models a failed comparison).
The function is total: every failure path yields a `maturityError` value,
never an exception. -/
def calculatePRMaturity (opts : FilterOptions) (prDetails : Option PRDetails)
    (prCommits : Option (List CommitInfo)) (prFiles : Option (List PRFile))
    (compareDiffFiles : Option (List PRFile)) : MaturityResult :=
  match prDetails with
  | none => maturityError ("Could not fetch PR details")
  | some details =>
    match prCommits with
    | none => maturityError ("No commits found in PR")
    | some [] => maturityError ("No commits found in PR")
    | some (firstCommit :: restCommits) =>
      let commits := firstCommit :: restCommits
      let prCreatedAt := details.created_at
      if commits.length = 1 then
        maturityStable
          (calculateSizeDetails opts (filterFiles opts (prFiles.getD [])))
          1 firstCommit.sha firstCommit.sha ("Single commit PR")
      else if (commits.filter (withinGracePeriod prCreatedAt)).length
          = commits.length then
        maturityStable
          (calculateSizeDetails opts (filterFiles opts (prFiles.getD [])))
          commits.length firstCommit.sha (commits.getLastD firstCommit).sha
          ("All commits within grace period or pre-existing")
      else
        match commits.filter (significantlyAfter prCreatedAt) with
        | [] =>
            maturityStable
              (calculateSizeDetails opts (filterFiles opts (prFiles.getD [])))
              commits.length firstCommit.sha (commits.getLastD firstCommit).sha
              ("No significant commits after PR publication")
        | firstSignificantCommit :: _ =>
            let lastCommit := commits.getLastD firstCommit
            let totalPRChanges :=
              calculateSizeDetails opts (filterFiles opts (prFiles.getD []))
            let firstSignificantIndex :=
              commits.findIdx fun c => c.sha == firstSignificantCommit.sha
            let baselineCommit :=
              if firstSignificantIndex > 0 then
                commits.getD (firstSignificantIndex - 1) firstCommit
              else firstCommit
            match compareDiffFiles with
            | none =>
                maturityError ("Could not compare commits for maturity analysis")
            | some diffFiles =>
                let changesAfterPublication := calculateDiffSize opts diffFiles
                let stableChanges : Int :=
                  max 0 ((totalPRChanges.total_changes : Int) -
                    (changesAfterPublication : Int))
                let maturityRatio : ℚ :=
                  if totalPRChanges.total_changes > 0 then
                    (stableChanges : ℚ) / (totalPRChanges.total_changes : ℚ)
                  else 1
                let maturityPercentage := jsRound (maturityRatio * 100)
                { maturity_ratio :=
                    some ((jsRound (maturityRatio * 1000) : ℚ) / 1000)
                  maturity_percentage := some maturityPercentage
                  details_total_commits := some commits.length
                  details_commits_after_publication :=
                    some (commits.filter (significantlyAfter prCreatedAt)).length
                  details_total_changes := some totalPRChanges.total_changes
                  details_changes_after_publication := some changesAfterPublication
                  details_stable_changes := some stableChanges
                  details_first_commit_sha := some firstCommit.sha
                  details_last_commit_sha := some lastCommit.sha
                  details_baseline_commit_sha := some baselineCommit.sha
                  details_first_significant_commit_sha :=
                    some firstSignificantCommit.sha
                  details_reason :=
                    some ("Calculated based on meaningful commits after publication") }

/-- Helper: the rounded-to-three-decimals value of a ratio in [0, 1] stays
in [0, 1]. -/
theorem jsRound_scaled_bounds (x : ℚ) (h0 : 0 ≤ x) (h1 : x ≤ 1) :
    0 ≤ (jsRound (x * 1000) : ℚ) / 1000 ∧ (jsRound (x * 1000) : ℚ) / 1000 ≤ 1 := by
  rw [jsRound_eq_floor]
  constructor
  · apply div_nonneg _ (by norm_num)
    have hge : (0 : Int) ≤ ⌊x * 1000 + 1 / 2⌋ := by
      apply Int.floor_nonneg.mpr
      nlinarith
    exact_mod_cast hge
  · rw [div_le_one (by norm_num)]
    have hle : ⌊x * 1000 + 1 / 2⌋ ≤ 1000 := by
      have hb : x * 1000 + 1 / 2 ≤ 1000 + 1 / 2 := by nlinarith
      calc ⌊x * 1000 + 1 / 2⌋ ≤ ⌊(1000 : ℚ) + 1 / 2⌋ := Int.floor_le_floor hb
        _ = 1000 := by norm_num
    exact_mod_cast hle

/-- Helper: the stable-changes ratio computed in the final branch of
`calculatePRMaturity` lies in [0, 1]. -/
theorem stable_ratio_bounds (total after : Nat) :
    0 ≤ (if total > 0 then
          ((max 0 ((total : Int) - (after : Int)) : Int) : ℚ) / (total : ℚ)
        else 1) ∧
      (if total > 0 then
          ((max 0 ((total : Int) - (after : Int)) : Int) : ℚ) / (total : ℚ)
        else 1) ≤ 1 := by
  by_cases ht : total > 0
  · have hs0 : (0 : Int) ≤ max 0 ((total : Int) - (after : Int)) := le_max_left _ _
    have hs1 : max 0 ((total : Int) - (after : Int)) ≤ (total : Int) := by
      apply max_le <;> omega
    have htq : (0 : ℚ) < (total : ℚ) := by exact_mod_cast ht
    constructor
    · rw [if_pos ht]
      apply div_nonneg _ (le_of_lt htq)
      exact_mod_cast hs0
    · rw [if_pos ht, div_le_one htq]
      exact_mod_cast hs1
  · rw [if_neg ht]
    norm_num

/-- C7: whenever the maturity computation succeeds (yields a non-null
ratio `r`), `r` lies in [0, 1]; moreover `r` is exactly 1 whenever the
filtered total change count of the PR is 0, and `r` is exactly 1 with
percentage 100 whenever the PR has exactly one commit. -/
theorem c7_maturity_ratio_bounds (opts : FilterOptions)
    (prDetails : Option PRDetails) (prCommits : Option (List CommitInfo))
    (prFiles : Option (List PRFile)) (compareDiffFiles : Option (List PRFile))
    (r : ℚ)
    (h : (calculatePRMaturity opts prDetails prCommits prFiles
        compareDiffFiles).maturity_ratio = some r) :
    (0 ≤ r ∧ r ≤ 1) ∧
      ((calculateSizeDetails opts (filterFiles opts (prFiles.getD []))).total_changes = 0
        → r = 1) ∧
      (∀ c : CommitInfo, prCommits = some [c] →
        r = 1 ∧
          (calculatePRMaturity opts prDetails prCommits prFiles
            compareDiffFiles).maturity_percentage = some 100) := by
  cases prDetails with
  | none => simp [calculatePRMaturity, maturityError] at h
  | some details =>
  cases prCommits with
  | none => simp [calculatePRMaturity, maturityError] at h
  | some commitList =>
  cases commitList with
  | nil => simp [calculatePRMaturity, maturityError] at h
  | cons firstCommit restCommits =>
  have hnotsingle : ∀ c : CommitInfo,
      some (firstCommit :: restCommits) = some [c] →
        (firstCommit :: restCommits).length = 1 := by
    intro c hc
    rw [Option.some.inj hc]
    rfl
  simp only [calculatePRMaturity] at h ⊢
  by_cases hone : (firstCommit :: restCommits).length = 1
  · rw [if_pos hone] at h ⊢
    simp only [maturityStable, Option.some.injEq] at h
    subst h
    simp only [maturityStable]
    exact ⟨by norm_num, fun _ => by trivial, fun c hc => ⟨by trivial, by trivial⟩⟩
  · rw [if_neg hone] at h ⊢
    by_cases hgrace :
        ((firstCommit :: restCommits).filter
          (withinGracePeriod details.created_at)).length
          = (firstCommit :: restCommits).length
    · rw [if_pos hgrace] at h ⊢
      simp only [maturityStable, Option.some.injEq] at h
      subst h
      simp only [maturityStable]
      exact ⟨by norm_num, fun _ => by trivial,
        fun c hc => absurd (hnotsingle c hc) hone⟩
    · rw [if_neg hgrace] at h ⊢
      cases hsig : (firstCommit :: restCommits).filter
          (significantlyAfter details.created_at) with
      | nil =>
          rw [hsig] at h
          simp only [maturityStable, Option.some.injEq] at h
          subst h
          simp only [maturityStable]
          exact ⟨by norm_num, fun _ => by trivial,
            fun c hc => absurd (hnotsingle c hc) hone⟩
      | cons firstSignificantCommit others =>
          rw [hsig] at h
          cases compareDiffFiles with
          | none => simp [maturityError] at h
          | some diffFiles =>
              simp only [Option.some.injEq] at h
              have hbr := stable_ratio_bounds
                (calculateSizeDetails opts
                  (filterFiles opts (prFiles.getD []))).total_changes
                (calculateDiffSize opts diffFiles)
              have hjr := jsRound_scaled_bounds _ hbr.1 hbr.2
              rw [h] at hjr
              refine ⟨hjr, fun hzero => ?_,
                fun c hc => absurd (hnotsingle c hc) hone⟩
              rw [← h, hzero]
              norm_num [jsRound_eq_floor]

/-- Witness for C7: a single-commit PR yields ratio 1, which the theorem
places in [0, 1]. -/
theorem c7_maturity_ratio_bounds_witness :
    (calculatePRMaturity cfgNoGlobs (some ⟨0⟩) (some [⟨"abc123", 0⟩]) none
        none).maturity_ratio = some 1 ∧
      (0 ≤ (1 : ℚ) ∧ (1 : ℚ) ≤ 1) := by
  have h : (calculatePRMaturity cfgNoGlobs (some ⟨0⟩) (some [⟨"abc123", 0⟩])
      none none).maturity_ratio = some 1 := rfl
  exact ⟨h, (c7_maturity_ratio_bounds cfgNoGlobs (some ⟨0⟩)
    (some [⟨"abc123", 0⟩]) none none 1 h).1⟩

/-- Helper: when not every commit is within the grace window, at least one
commit is significantly after PR creation, so the significant filter is
non-empty. -/
theorem significant_filter_ne_nil (t : Int) (commits : List CommitInfo)
    (h : (commits.filter (withinGracePeriod t)).length ≠ commits.length) :
    commits.filter (significantlyAfter t) ≠ [] := by
  have hex : ∃ c ∈ commits, ¬(withinGracePeriod t c = true) := by
    by_contra hall
    push_neg at hall
    exact h (by rw [List.filter_eq_self.mpr hall])
  obtain ⟨c, hc, hnp⟩ := hex
  have hsig : significantlyAfter t c = true := by
    simp only [withinGracePeriod, Bool.or_eq_true, decide_eq_true_eq] at hnp
    push_neg at hnp
    simp only [significantlyAfter, decide_eq_true_eq]
    omega
  exact List.ne_nil_of_mem (List.mem_filter.mpr ⟨hc, hsig⟩)

/-- C8: every failure path of the maturity computation — missing PR
details, missing or empty commit list, or a failed baseline-to-head
comparison on an input that reaches the comparison (more than one commit,
not all within the grace window) — produces null ratio and percentage plus
a descriptive error string.  The embedded function is total, so no
exception can propagate. -/
theorem c8_maturity_error_paths (opts : FilterOptions)
    (prDetails : Option PRDetails) (prCommits : Option (List CommitInfo))
    (prFiles : Option (List PRFile)) (compareDiffFiles : Option (List PRFile))
    (h : prDetails = none ∨ prCommits = none ∨ prCommits = some [] ∨
      (compareDiffFiles = none ∧
        ∃ (details : PRDetails) (commits : List CommitInfo),
          prDetails = some details ∧ prCommits = some commits ∧
            commits.length ≠ 1 ∧
            (commits.filter (withinGracePeriod details.created_at)).length
              ≠ commits.length)) :
    (calculatePRMaturity opts prDetails prCommits prFiles
        compareDiffFiles).maturity_ratio = none ∧
      (calculatePRMaturity opts prDetails prCommits prFiles
        compareDiffFiles).maturity_percentage = none ∧
      ∃ msg : String,
        (calculatePRMaturity opts prDetails prCommits prFiles
          compareDiffFiles).details_error = some msg := by
  rcases h with h | h | h | ⟨hcmp, details, commits, hd, hc, hone, hgrace⟩
  · subst h
    exact ⟨rfl, rfl, ⟨_, rfl⟩⟩
  · subst h
    cases prDetails <;> exact ⟨rfl, rfl, ⟨_, rfl⟩⟩
  · subst h
    cases prDetails <;> exact ⟨rfl, rfl, ⟨_, rfl⟩⟩
  · subst hd
    subst hc
    subst hcmp
    cases commits with
    | nil => exact ⟨rfl, rfl, ⟨_, rfl⟩⟩
    | cons firstCommit restCommits =>
        have hsig := significant_filter_ne_nil details.created_at
          (firstCommit :: restCommits) hgrace
        simp only [calculatePRMaturity]
        rw [if_neg hone, if_neg hgrace]
        cases hs : (firstCommit :: restCommits).filter
            (significantlyAfter details.created_at) with
        | nil => exact absurd hs hsig
        | cons firstSignificantCommit others =>
            exact ⟨rfl, rfl, ⟨_, rfl⟩⟩

/-- Witness for C8: a failed PR-details fetch yields the error result. -/
theorem c8_maturity_error_paths_witness :
    (calculatePRMaturity cfgNoGlobs none none none none).maturity_ratio = none ∧
      (calculatePRMaturity cfgNoGlobs none none none
        none).maturity_percentage = none ∧
      ∃ msg : String,
        (calculatePRMaturity cfgNoGlobs none none none
          none).details_error = some msg :=
  c8_maturity_error_paths cfgNoGlobs none none none none (Or.inl rfl)

/-- Per-PR metrics record produced by
`TeamMetricsCollector.calculatePRMetrics`. -/
structure PRMetrics where
  pr_number : Nat
  author : String
  state : String
  merged : Bool
  created_at : Int
  merged_at : Option Int
  pickup_time_hours : Option ℚ
  approve_time_hours : Option ℚ
  merge_time_hours : Option ℚ
  pr_size : Option String
  deriving Repr

/-- A pull request as consumed by the team metrics collector. -/
structure PRInfo where
  number : Nat
  author : String
  state : String
  created_at : Int
  draft : Bool
  merged_at : Option Int
  labels : List String
  deriving Repr

/-- Embedding of `TeamMetricsCollector.getReadyForReviewTime`: the first
`ready_for_review` timeline event's timestamp when one exists (the source
checks the timeline in both the draft and the non-draft branch), otherwise
the creation time. -/
def getReadyForReviewTime (pr : PRInfo) (createdAt : Int)
    (timeline : List TimelineEvent) : Int :=
  if !pr.draft then
    match timeline.find? (fun e => e.event == "ready_for_review") with
    | some readyEvent => readyEvent.created_at
    | none => createdAt
  else
    match timeline.find? (fun e => e.event == "ready_for_review") with
    | some readyEvent => readyEvent.created_at
    | none => createdAt

/-- Embedding of `TeamMetricsCollector.getPRSizeFromLabels`: the first label
whose lowercased name starts with `size/`, with that marker stripped.
(The JS `String.replace` with a string pattern replaces the first
occurrence; the labels at hand contain the marker once, where the two
behaviours agree.) -/
def getPRSizeFromLabels (labels : List String) : Option String :=
  match labels with
  | [] => none
  | _ :: _ =>
      match labels.find? (fun name => (name.toLower).startsWith "size/") with
      | none => none
      | some name => some ((name.toLower).replace "size/" "")

/-- Embedding of `TeamMetricsCollector.calculatePRMetrics` for a PR whose
timeline and reviews have been fetched (the source's per-PR exception path
is I/O-only and out of the model). -/
def calculatePRMetrics (pr : PRInfo) (timeline : List TimelineEvent)
    (reviews : List Review) : PRMetrics :=
  let createdAt := pr.created_at
  let readyForReviewAt := getReadyForReviewTime pr createdAt timeline
  { pr_number := pr.number
    author := pr.author
    state := pr.state
    merged := pr.merged_at.isSome
    created_at := pr.created_at
    merged_at := pr.merged_at
    pickup_time_hours := calculatePickupTime readyForReviewAt timeline reviews
    approve_time_hours := calculateApproveTime readyForReviewAt timeline reviews
    merge_time_hours :=
      match pr.merged_at with
      | some mergedAt => calculateMergeTime mergedAt reviews
      | none => none
    pr_size := getPRSizeFromLabels pr.labels }

/-- Embedding of `TeamMetricsCollector.getDaysInPeriod`. -/
def getDaysInPeriod (timePeriod : String) : Nat :=
  if timePeriod == "fortnightly" then 14
  else if timePeriod == "monthly" then 30
  else 7

/-- Embedding of `TeamMetricsCollector.ratePickupTime`. -/
def ratePickupTime (hours : ℚ) : String :=
  if hours < 2 then "Elite"
  else if hours ≤ 6 then "Good"
  else if hours ≤ 16 then "Fair"
  else "Needs Focus"

/-- Embedding of `TeamMetricsCollector.rateApproveTime`. -/
def rateApproveTime (hours : ℚ) : String :=
  if hours < 17 then "Elite"
  else if hours ≤ 24 then "Good"
  else if hours ≤ 45 then "Fair"
  else "Needs Focus"

/-- Embedding of `TeamMetricsCollector.rateMergeTime`. -/
def rateMergeTime (hours : ℚ) : String :=
  if hours < 2 then "Elite"
  else if hours ≤ 5 then "Good"
  else if hours ≤ 19 then "Fair"
  else "Needs Focus"

/-- Embedding of `TeamMetricsCollector.rateMergeFrequency`. -/
def rateMergeFrequency (frequency : ℚ) : String :=
  if frequency > 1.6 then "Elite"
  else if frequency ≥ 1.1 then "Good"
  else if frequency ≥ 0.6 then "Fair"
  else "Needs Focus"

/-- Embedding of `TeamMetricsCollector.ratePRSize` (`sizeMap` lookup with
default `Unknown`). -/
def ratePRSize (size : String) : String :=
  if size == "s" then "Elite"
  else if size == "m" then "Good"
  else if size == "l" then "Fair"
  else if size == "xl" then "Needs Focus"
  else "Unknown"

/-- One aggregate entry (`pickup_time`, `approve_time` or `merge_time`). -/
structure MetricStat where
  average_hours : Option ℚ
  rating : Option String
  sample_size : Nat
  deriving Repr

/-- The `merge_frequency` aggregate entry. -/
structure MergeFrequencyStat where
  value : ℚ
  rating : String
  merged_prs : Nat
  total_prs : Nat
  unique_authors : Nat
  deriving Repr

/-- The `size_distribution` aggregate entry. -/
structure SizeDistribution where
  small_percent : Int
  medium_percent : Int
  large_percent : Int
  xl_percent : Int
  unknown_percent : Int
  predominant_size : String
  predominant_rating : String
  predominant_percent : Int
  deriving Repr

/-- The aggregate statistics object of `calculateAggregateStats`. -/
structure AggregateStats where
  pickup_time : MetricStat
  approve_time : MetricStat
  merge_time : MetricStat
  merge_frequency : MergeFrequencyStat
  size_distribution : SizeDistribution
  deriving Repr

/-- The stat-building pattern the source writes inline for each of the
three duration metrics: `avg ? round(avg) : null` and
`avg ? rate(avg) : null` — a JavaScript truthiness test, so an average of
exactly 0 is reported as `null`, exactly like an absent average. -/
def truthyStat (avg : Option ℚ) (rate : ℚ → String) (sampleSize : Nat) :
    MetricStat :=
  { average_hours :=
      match avg with
      | some a => if a = 0 then none else some (roundTwo a)
      | none => none
    rating :=
      match avg with
      | some a => if a = 0 then none else some (rate a)
      | none => none
    sample_size := sampleSize }

/-- Embedding of `TeamMetricsCollector.calculateSizeDistribution`.  A
`pr_size` that is absent, empty (falsy in JS) or not one of the five bucket
keys lands in the `unknown` bucket, which the subtraction below captures
exactly; the predominant entry scans the buckets in insertion order
(s, m, l, xl) with a strict comparison and skips `unknown`. -/
def calculateSizeDistribution (prMetrics : List PRMetrics) : SizeDistribution :=
  let total := prMetrics.length
  let countS := (prMetrics.filter (fun pr => pr.pr_size == some "s")).length
  let countM := (prMetrics.filter (fun pr => pr.pr_size == some "m")).length
  let countL := (prMetrics.filter (fun pr => pr.pr_size == some "l")).length
  let countXL := (prMetrics.filter (fun pr => pr.pr_size == some "xl")).length
  let unknownCount := total - (countS + countM + countL + countXL)
  let predominant :=
    [("s", countS), ("m", countM), ("l", countL), ("xl", countXL)].foldl
      (fun acc p => if p.2 > acc.2 then p else acc) ("unknown", 0)
  { small_percent := if total > 0 then jsRound ((countS : ℚ) / total * 100) else 0
    medium_percent := if total > 0 then jsRound ((countM : ℚ) / total * 100) else 0
    large_percent := if total > 0 then jsRound ((countL : ℚ) / total * 100) else 0
    xl_percent := if total > 0 then jsRound ((countXL : ℚ) / total * 100) else 0
    unknown_percent :=
      if total > 0 then jsRound ((unknownCount : ℚ) / total * 100) else 0
    predominant_size := predominant.1
    predominant_rating := ratePRSize predominant.1
    predominant_percent :=
      if total > 0 then jsRound ((predominant.2 : ℚ) / total * 100) else 0 }

/-- Embedding of `TeamMetricsCollector.calculateAggregateStats`. -/
def calculateAggregateStats (timePeriod : String) (prMetrics : List PRMetrics) :
    AggregateStats :=
  let pickupTimes := prMetrics.filterMap fun m => m.pickup_time_hours
  let approveTimes := prMetrics.filterMap fun m => m.approve_time_hours
  let mergeTimes := prMetrics.filterMap fun m => m.merge_time_hours
  let avgPickupTime : Option ℚ :=
    if pickupTimes.length > 0 then
      some (pickupTimes.sum / (pickupTimes.length : ℚ))
    else none
  let avgApproveTime : Option ℚ :=
    if approveTimes.length > 0 then
      some (approveTimes.sum / (approveTimes.length : ℚ))
    else none
  let avgMergeTime : Option ℚ :=
    if mergeTimes.length > 0 then
      some (mergeTimes.sum / (mergeTimes.length : ℚ))
    else none
  let mergedCount := (prMetrics.filter fun m => m.merged).length
  let totalPRs := prMetrics.length
  let uniqueAuthors := (prMetrics.map fun m => m.author).dedup.length
  let daysInPeriod := getDaysInPeriod timePeriod
  let weeksInPeriod : ℚ := (daysInPeriod : ℚ) / 7
  let mergeFrequency : ℚ :=
    if uniqueAuthors > 0 ∧ weeksInPeriod > 0 then
      (mergedCount : ℚ) / ((uniqueAuthors : ℚ) * weeksInPeriod)
    else 0
  { pickup_time := truthyStat avgPickupTime ratePickupTime pickupTimes.length
    approve_time := truthyStat avgApproveTime rateApproveTime approveTimes.length
    merge_time := truthyStat avgMergeTime rateMergeTime mergeTimes.length
    merge_frequency :=
      { value := roundTwo mergeFrequency
        rating := rateMergeFrequency mergeFrequency
        merged_prs := mergedCount
        total_prs := totalPRs
        unique_authors := uniqueAuthors }
    size_distribution := calculateSizeDistribution prMetrics }

/-- Date range object of `getDateRange` (`stop` models the `end` field,
which is a Lean keyword). -/
structure DateRange where
  start : String
  stop : String
  deriving DecidableEq, Repr

/-- The `cycle_time` record of `calculateCycleTime`. -/
structure CycleTimeStats where
  avg_hours : Option ℚ
  commit_count : Nat
  oldest_hours : Option ℚ
  newest_hours : Option ℚ
  deriving Repr

/-- The record of `calculateDeployFrequency`. -/
structure DeployFrequencyStats where
  deploy_frequency_days : Option ℚ
  deploy_count : Nat
  deriving Repr

/-- Result of `TeamMetricsCollector.collectMetrics`: either the explicit
no-data sentinel (`error` string plus period and date range) or the full
metrics object. -/
inductive TeamMetricsResult
  | noData (error : String) (period : String) (date_range : DateRange)
  | metricsData (period : String) (date_range : DateRange)
      (total_prs analyzed_prs unique_authors : Nat)
      (metrics : AggregateStats) (cycle_time : CycleTimeStats)
      (deployFrequency : DeployFrequencyStats)
  deriving Repr

/-- Embedding of `TeamMetricsCollector.collectMetrics` with the fetched
data as inputs: `prs` is the provider's answer to the date-range PR query
(`none` models a missing list), `fetchTimeline`/`fetchReviews` deliver each
PR's timeline and reviews, and the two DORA records stand for the
already-computed `calculateCycleTime`/`calculateDeployFrequency` results
(whose provider interaction is out of the model). -/
def collectMetrics (timePeriod : String) (dateRange : DateRange)
    (prs : Option (List PRInfo))
    (fetchTimeline : Nat → List TimelineEvent)
    (fetchReviews : Nat → List Review)
    (cycleTimeStats : CycleTimeStats)
    (deployFrequencyStats : DeployFrequencyStats) : TeamMetricsResult :=
  match prs with
  | none =>
      TeamMetricsResult.noData
        ("No pull requests found in the specified time period")
        timePeriod dateRange
  | some prList =>
      if prList.length = 0 then
        TeamMetricsResult.noData
          ("No pull requests found in the specified time period")
          timePeriod dateRange
      else
        let prMetrics := prList.map fun pr =>
          calculatePRMetrics pr (fetchTimeline pr.number) (fetchReviews pr.number)
        TeamMetricsResult.metricsData timePeriod dateRange prList.length
          prMetrics.length ((prList.map fun pr => pr.author).dedup.length)
          (calculateAggregateStats timePeriod prMetrics)
          cycleTimeStats deployFrequencyStats

/-- C9: a window whose PR list is missing or empty yields the explicit
no-data sentinel carrying the error string, the period and the date range —
never the metrics constructor. -/
theorem c9_empty_window_returns_no_data (timePeriod : String)
    (dateRange : DateRange) (prs : Option (List PRInfo))
    (fetchTimeline : Nat → List TimelineEvent)
    (fetchReviews : Nat → List Review)
    (cycleTimeStats : CycleTimeStats)
    (deployFrequencyStats : DeployFrequencyStats)
    (h : prs = none ∨ prs = some []) :
    collectMetrics timePeriod dateRange prs fetchTimeline fetchReviews
        cycleTimeStats deployFrequencyStats =
      TeamMetricsResult.noData
        ("No pull requests found in the specified time period")
        timePeriod dateRange := by
  rcases h with h | h <;> subst h <;> rfl

/-- Witness for C9 at an absent PR list. -/
theorem c9_empty_window_returns_no_data_witness :
    collectMetrics ("weekly") ⟨"2026-10-05", "2026-10-12"⟩ none
        (fun _ => []) (fun _ => []) ⟨none, 0, none, none⟩ ⟨none, 0⟩ =
      TeamMetricsResult.noData
        ("No pull requests found in the specified time period")
        ("weekly") ⟨"2026-10-05", "2026-10-12"⟩ :=
  c9_empty_window_returns_no_data ("weekly") ⟨"2026-10-05", "2026-10-12"⟩
    none (fun _ => []) (fun _ => []) ⟨none, 0, none, none⟩ ⟨none, 0⟩
    (Or.inl rfl)

/-- Helper: the truthiness pattern reports a zero average as absent. -/
theorem truthyStat_zero_mean (rate : ℚ → String) (n : Nat) :
    (truthyStat (some 0) rate n).average_hours = none ∧
      (truthyStat (some 0) rate n).rating = none ∧
      (truthyStat (some 0) rate n).sample_size = n := by
  simp [truthyStat]

/-- C10: when the non-null samples of a duration metric are non-empty but
average to exactly 0, the aggregate reports `average_hours = null` and
`rating = null` while `sample_size` still carries the positive count — for
each of pickup, approve and merge time. -/
theorem c10_zero_average_masked (timePeriod : String)
    (prMetrics : List PRMetrics) :
    ((prMetrics.filterMap fun m => m.pickup_time_hours) ≠ [] →
      (prMetrics.filterMap fun m => m.pickup_time_hours).sum /
        (((prMetrics.filterMap fun m => m.pickup_time_hours).length : ℚ)) = 0 →
      (calculateAggregateStats timePeriod prMetrics).pickup_time.average_hours
          = none ∧
        (calculateAggregateStats timePeriod prMetrics).pickup_time.rating = none ∧
        (calculateAggregateStats timePeriod prMetrics).pickup_time.sample_size
          = (prMetrics.filterMap fun m => m.pickup_time_hours).length ∧
        0 < (prMetrics.filterMap fun m => m.pickup_time_hours).length) ∧
    ((prMetrics.filterMap fun m => m.approve_time_hours) ≠ [] →
      (prMetrics.filterMap fun m => m.approve_time_hours).sum /
        (((prMetrics.filterMap fun m => m.approve_time_hours).length : ℚ)) = 0 →
      (calculateAggregateStats timePeriod prMetrics).approve_time.average_hours
          = none ∧
        (calculateAggregateStats timePeriod prMetrics).approve_time.rating = none ∧
        (calculateAggregateStats timePeriod prMetrics).approve_time.sample_size
          = (prMetrics.filterMap fun m => m.approve_time_hours).length ∧
        0 < (prMetrics.filterMap fun m => m.approve_time_hours).length) ∧
    ((prMetrics.filterMap fun m => m.merge_time_hours) ≠ [] →
      (prMetrics.filterMap fun m => m.merge_time_hours).sum /
        (((prMetrics.filterMap fun m => m.merge_time_hours).length : ℚ)) = 0 →
      (calculateAggregateStats timePeriod prMetrics).merge_time.average_hours
          = none ∧
        (calculateAggregateStats timePeriod prMetrics).merge_time.rating = none ∧
        (calculateAggregateStats timePeriod prMetrics).merge_time.sample_size
          = (prMetrics.filterMap fun m => m.merge_time_hours).length ∧
        0 < (prMetrics.filterMap fun m => m.merge_time_hours).length) := by
  refine ⟨fun hne hz => ?_, fun hne hz => ?_, fun hne hz => ?_⟩ <;>
  · have hlen := List.length_pos.mpr hne
    simp only [calculateAggregateStats]
    rw [if_pos hlen, hz]
    exact ⟨(truthyStat_zero_mean _ _).1, (truthyStat_zero_mean _ _).2.1,
      (truthyStat_zero_mean _ _).2.2, hlen⟩

/-- Sample input for the C10 witness: one PR whose three durations are all
exactly zero hours. -/
def c10SampleMetrics : List PRMetrics :=
  [{ pr_number := 1
     author := "alice"
     state := "closed"
     merged := true
     created_at := 0
     merged_at := some 0
     pickup_time_hours := some 0
     approve_time_hours := some 0
     merge_time_hours := some 0
     pr_size := some "s" }]

/-- Witness for C10: with one zero-hour sample the pickup entry hides the
average and rating while reporting one sample. -/
theorem c10_zero_average_masked_witness :
    (calculateAggregateStats ("weekly") c10SampleMetrics).pickup_time.average_hours
        = none ∧
      (calculateAggregateStats ("weekly") c10SampleMetrics).pickup_time.rating
        = none ∧
      (calculateAggregateStats ("weekly")
          c10SampleMetrics).pickup_time.sample_size = 1 := by
  have h := (c10_zero_average_masked ("weekly") c10SampleMetrics).1
    (by simp [c10SampleMetrics]) (by simp [c10SampleMetrics])
  refine ⟨h.1, h.2.1, ?_⟩
  have hs := h.2.2.1
  simpa [c10SampleMetrics] using hs

end AgileMetrics
